import Mathlib

/-!
Shallow embedding of the OAuth 2.1 provider and HTTP request routing of the
featurebase-mcp server (source: `src/index.ts`, `auth.ts` section, and the
session-variant HTTP entry point).  JavaScript `Map` objects are modelled as
functions `String → Option V`, `Date.now()` as an explicit `now : Nat`
parameter (milliseconds), and each call to `crypto.randomUUID()` as an
explicit string parameter (the randomness oracle).  Machine 32-bit words in
SHA-256 are `Nat` reduced modulo `2 ^ 32`.
-/

set_option maxRecDepth 10000

namespace FeaturebaseMcp

/-- A JavaScript `Map<string, V>`, modelled extensionally by its lookup
function (`Map.get` returns `undefined`, i.e. `none`, for absent keys). -/
def JsMap (V : Type) : Type := String → Option V

namespace JsMap

/-- `new Map()` — the empty map. -/
def empty {V : Type} : JsMap V := fun _ => none

/-- `m.get(k)`. -/
def get {V : Type} (m : JsMap V) (k : String) : Option V := m k

/-- `m.set(k, v)` — insert or overwrite. -/
def set {V : Type} (m : JsMap V) (k : String) (v : V) : JsMap V :=
  fun q => if q = k then some v else m q

/-- `m.delete(k)` — remove the binding of `k`, if any. -/
def del {V : Type} (m : JsMap V) (k : String) : JsMap V :=
  fun q => if q = k then none else m q

theorem get_set_self {V : Type} (m : JsMap V) (k : String) (v : V) :
    (m.set k v).get k = some v := by simp [get, set]

theorem get_set_ne {V : Type} (m : JsMap V) (k q : String) (v : V) (h : q ≠ k) :
    (m.set k v).get q = m.get q := by simp [get, set, h]

theorem get_del_self {V : Type} (m : JsMap V) (k : String) :
    (m.del k).get k = none := by simp [get, del]

theorem get_del_ne {V : Type} (m : JsMap V) (k q : String) (h : q ≠ k) :
    (m.del k).get q = m.get q := by simp [get, del, h]

end JsMap

/-- A `URLSearchParams` object, modelled by its lookup function
(`params.get(k)` returns `null`, i.e. `none`, for absent keys). -/
def SearchParams : Type := String → Option String

/-- Build a `URLSearchParams` value from a literal association list
(first binding of a key wins, as with `URLSearchParams.get`). -/
def paramsOfList (l : List (String × String)) : SearchParams :=
  fun k => (l.find? (fun p => p.1 = k)).map (fun p => p.2)

/-- JavaScript `params.get(k) || ""`: `null` becomes `""` (and `""` stays `""`). -/
def jsGetD (p : SearchParams) (k : String) : String := (p k).getD ""

/-- JavaScript `params.get(k) || d` for a non-empty default `d`: both `null`
and the falsy empty string are replaced by `d`. -/
def jsGetOr (p : SearchParams) (k d : String) : String :=
  match p k with
  | none => d
  | some v => if v = "" then d else v

/-- JavaScript `s.startsWith(p)`.  For the ASCII prefixes used here,
code-unit comparison and character comparison coincide. -/
def jsStartsWith (s p : String) : Bool := p.data.isPrefixOf s.data

/-- JavaScript `s.slice(n)` for an ASCII-only removed prefix: drop the
first `n` characters. -/
def jsSlice (s : String) (n : Nat) : String := ⟨s.data.drop n⟩

/-! ## SHA-256 (FIPS 180-4), as invoked by `crypto.createHash("sha256")`

32-bit words are `Nat` values reduced modulo `2 ^ 32`; bytes are `Nat`
values below `256`. -/

/-- Truncate to a 32-bit word. -/
def w32 (x : Nat) : Nat := x % 4294967296

/-- Bitwise complement of a 32-bit word. -/
def not32 (x : Nat) : Nat := x ^^^ 4294967295

/-- Right rotation of a 32-bit word by `n` bits. -/
def rotr32 (x n : Nat) : Nat := w32 ((x >>> n) ||| (x <<< (32 - n)))

/-- SHA-256 `Ch(x, y, z)`. -/
def shaCh (x y z : Nat) : Nat := (x &&& y) ^^^ (not32 x &&& z)

/-- SHA-256 `Maj(x, y, z)`. -/
def shaMaj (x y z : Nat) : Nat := (x &&& y) ^^^ (x &&& z) ^^^ (y &&& z)

/-- SHA-256 `Σ₀`. -/
def bsig0 (x : Nat) : Nat := rotr32 x 2 ^^^ rotr32 x 13 ^^^ rotr32 x 22

/-- SHA-256 `Σ₁`. -/
def bsig1 (x : Nat) : Nat := rotr32 x 6 ^^^ rotr32 x 11 ^^^ rotr32 x 25

/-- SHA-256 `σ₀`. -/
def ssig0 (x : Nat) : Nat := rotr32 x 7 ^^^ rotr32 x 18 ^^^ (x >>> 3)

/-- SHA-256 `σ₁`. -/
def ssig1 (x : Nat) : Nat := rotr32 x 17 ^^^ rotr32 x 19 ^^^ (x >>> 10)

/-- The 64 SHA-256 round constants (FIPS 180-4 §4.2.2, in decimal). -/
def shaK : List Nat :=
  [1116352408, 1899447441, 3049323471, 3921009573,
   961987163, 1508970993, 2453635748, 2870763221,
   3624381080, 310598401, 607225278, 1426881987,
   1925078388, 2162078206, 2614888103, 3248222580,
   3835390401, 4022224774, 264347078, 604807628,
   770255983, 1249150122, 1555081692, 1996064986,
   2554220882, 2821834349, 2952996808, 3210313671,
   3336571891, 3584528711, 113926993, 338241895,
   666307205, 773529912, 1294757372, 1396182291,
   1695183700, 1986661051, 2177026350, 2456956037,
   2730485921, 2820302411, 3259730800, 3345764771,
   3516065817, 3600352804, 4094571909, 275423344,
   430227734, 506948616, 659060556, 883997877,
   958139571, 1322822218, 1537002063, 1747873779,
   1955562222, 2024104815, 2227730452, 2361852424,
   2428436474, 2756734187, 3204031479, 3329325298]

/-- The eight SHA-256 initial hash values. -/
structure Hash8 where
  a : Nat
  b : Nat
  c : Nat
  d : Nat
  e : Nat
  f : Nat
  g : Nat
  h : Nat
deriving Repr, DecidableEq

/-- SHA-256 initial state `H⁽⁰⁾` (FIPS 180-4 §5.3.3, in decimal). -/
def shaInit : Hash8 :=
  ⟨1779033703, 3144134277, 1013904242, 2773480762,
   1359893119, 2600822924, 528734635, 1541459225⟩

/-- Indexing with default `0`, used for word lookups. -/
def nthW (l : List Nat) (i : Nat) : Nat := l.getD i 0

/-- Big-endian 32-bit word assembled from 4 bytes of a block. -/
def wordAt (block : List Nat) (o : Nat) : Nat :=
  nthW block o * 16777216 + nthW block (o + 1) * 65536 +
    nthW block (o + 2) * 256 + nthW block (o + 3)

/-- The 16 message words of one 64-byte block. -/
def blockWords (block : List Nat) : List Nat :=
  (List.range 16).map (fun t => wordAt block (4 * t))

/-- Extend 16 message words to the 64-entry message schedule. -/
def scheduleExtend (w : List Nat) : List Nat :=
  (List.range 48).foldl
    (fun w _ =>
      let n := w.length
      w ++ [w32 (ssig1 (nthW w (n - 2)) + nthW w (n - 7) +
                 ssig0 (nthW w (n - 15)) + nthW w (n - 16))])
    w

/-- One SHA-256 round. -/
def shaRound (st : Hash8) (kw : Nat × Nat) : Hash8 :=
  let t1 := w32 (st.h + bsig1 st.e + shaCh st.e st.f st.g + kw.1 + kw.2)
  let t2 := w32 (bsig0 st.a + shaMaj st.a st.b st.c)
  ⟨w32 (t1 + t2), st.a, st.b, st.c, w32 (st.d + t1), st.e, st.f, st.g⟩

/-- Compress one 64-byte block into the running state. -/
def compressBlock (hs : Hash8) (block : List Nat) : Hash8 :=
  let w := scheduleExtend (blockWords block)
  let fin := (shaK.zip w).foldl shaRound hs
  ⟨w32 (hs.a + fin.a), w32 (hs.b + fin.b), w32 (hs.c + fin.c), w32 (hs.d + fin.d),
   w32 (hs.e + fin.e), w32 (hs.f + fin.f), w32 (hs.g + fin.g), w32 (hs.h + fin.h)⟩

/-- Big-endian 8-byte encoding of a length in bits. -/
def be64 (n : Nat) : List Nat :=
  [(n >>> 56) % 256, (n >>> 48) % 256, (n >>> 40) % 256, (n >>> 32) % 256,
   (n >>> 24) % 256, (n >>> 16) % 256, (n >>> 8) % 256, n % 256]

/-- Big-endian 4-byte encoding of a 32-bit word. -/
def be32 (x : Nat) : List Nat :=
  [(x >>> 24) % 256, (x >>> 16) % 256, (x >>> 8) % 256, x % 256]

/-- SHA-256 padding: `0x80`, zero fill to 56 mod 64, then the 64-bit
big-endian bit length. -/
def shaPad (msg : List Nat) : List Nat :=
  msg ++ [128] ++ List.replicate ((119 - msg.length % 64) % 64) 0 ++
    be64 (msg.length * 8)

/-- SHA-256 of a byte sequence, as a 32-byte digest. -/
def sha256Bytes (msg : List Nat) : List Nat :=
  let padded := shaPad msg
  let fin := (List.range (padded.length / 64)).foldl
    (fun hs i => compressBlock hs ((padded.drop (64 * i)).take 64)) shaInit
  [fin.a, fin.b, fin.c, fin.d, fin.e, fin.f, fin.g, fin.h].flatMap be32

/-- UTF-8 encoding of one character (what `hash.update(string)` hashes). -/
def utf8Char (c : Char) : List Nat :=
  let n := c.toNat
  if n < 128 then [n]
  else if n < 2048 then [192 ||| (n >>> 6), 128 ||| (n % 64)]
  else if n < 65536 then
    [224 ||| (n >>> 12), 128 ||| ((n >>> 6) % 64), 128 ||| (n % 64)]
  else
    [240 ||| (n >>> 18), 128 ||| ((n >>> 12) % 64),
     128 ||| ((n >>> 6) % 64), 128 ||| (n % 64)]

/-- UTF-8 encoding of a string. -/
def utf8Bytes (s : String) : List Nat := s.data.flatMap utf8Char

/-! ## base64url (`buffer.toString("base64url")`: URL-safe alphabet, no padding) -/

/-- The base64url alphabet. -/
def b64Alphabet : List Char :=
  "ABCDEFGHIJKLMNOPQRSTUVWXYZabcdefghijklmnopqrstuvwxyz0123456789-_".data

/-- The base64url digit for a 6-bit value. -/
def b64Digit (n : Nat) : Char := b64Alphabet.getD n 'A'

/-- base64url character stream of a byte sequence (three bytes at a time,
unpadded tail groups of two or three characters). -/
def base64UrlChars : List Nat → List Char
  | [] => []
  | [b0] => [b64Digit (b0 >>> 2), b64Digit ((b0 % 4) <<< 4)]
  | [b0, b1] =>
      [b64Digit (b0 >>> 2), b64Digit (((b0 % 4) <<< 4) ||| (b1 >>> 4)),
       b64Digit ((b1 % 16) <<< 2)]
  | b0 :: b1 :: b2 :: rest =>
      b64Digit (b0 >>> 2) :: b64Digit (((b0 % 4) <<< 4) ||| (b1 >>> 4)) ::
        b64Digit (((b1 % 16) <<< 2) ||| (b2 >>> 6)) :: b64Digit (b2 % 64) ::
          base64UrlChars rest

/-- `base64UrlEncode` from the source: `buffer.toString("base64url")`. -/
def base64UrlEncode (bytes : List Nat) : String := ⟨base64UrlChars bytes⟩

/-- The PKCE challenge recomputed by the token endpoint:
`base64UrlEncode(crypto.createHash("sha256").update(codeVerifier).digest())`. -/
def pkceChallenge (codeVerifier : String) : String :=
  base64UrlEncode (sha256Bytes (utf8Bytes codeVerifier))

/-! ## Data model of the `OAuthProvider` class -/

/-- `interface RegisteredClient`. -/
structure RegisteredClient where
  clientId : String
  clientSecret : Option String
  redirectUris : List String
  clientName : Option String
deriving Repr, DecidableEq

/-- `interface AuthCode`. -/
structure AuthCode where
  code : String
  clientId : String
  redirectUri : String
  codeChallenge : String
  codeChallengeMethod : String
  expiresAt : Nat
deriving Repr, DecidableEq

/-- `interface TokenRecord`. -/
structure TokenRecord where
  accessToken : String
  refreshToken : String
  clientId : String
  expiresAt : Nat
deriving Repr, DecidableEq

/-- The four private `Map` fields of `OAuthProvider`
(`clients`, `authCodes`, `tokens`, `refreshTokenIndex`). -/
structure ProviderState where
  clients : JsMap RegisteredClient
  authCodes : JsMap AuthCode
  tokens : JsMap TokenRecord
  refreshTokenIndex : JsMap String

/-- The provider state of a freshly constructed `OAuthProvider`. -/
def ProviderState.initial : ProviderState :=
  ⟨JsMap.empty, JsMap.empty, JsMap.empty, JsMap.empty⟩

/-- The JSON body of a 200 token response
(`{access_token, token_type, expires_in, refresh_token}`). -/
structure TokenSuccessBody where
  access_token : String
  token_type : String
  expires_in : Nat
  refresh_token : String
deriving Repr, DecidableEq

/-- Outcome of a `POST /token` request: 200 with a token pair, 400
`invalid_grant` (optionally with an `error_description`), or 400
`unsupported_grant_type`. -/
inductive TokenResult where
  | ok (body : TokenSuccessBody)
  | invalidGrant (errorDescription : Option String)
  | unsupportedGrantType
deriving Repr, DecidableEq

/-- Whether a token result is the 200 success case. -/
def TokenResult.isOk : TokenResult → Bool
  | .ok _ => true
  | _ => false

/-- Whether a token result is the 400 `invalid_grant` case. -/
def TokenResult.isInvalidGrant : TokenResult → Bool
  | .invalidGrant _ => true
  | _ => false

/-! ## Token endpoint (`handleToken`, `handleTokenAuthCode`, `handleTokenRefresh`)

`now` is the value of `Date.now()` during the request; `uuidA` and `uuidR`
are the two `crypto.randomUUID()` results consumed when a new token pair is
minted. -/

/-- `OAuthProvider.handleTokenAuthCode` (source lines 474–517). -/
def handleTokenAuthCode (s : ProviderState) (params : SearchParams)
    (now : Nat) (uuidA uuidR : String) : TokenResult × ProviderState :=
  let code := jsGetD params "code"
  let codeVerifier := jsGetD params "code_verifier"
  let clientId := jsGetD params "client_id"
  match s.authCodes.get code with
  | none => (.invalidGrant none, s)
  | some authCode =>
    if authCode.clientId ≠ clientId ∨ now > authCode.expiresAt then
      (.invalidGrant none, s)
    else
      let expectedChallenge := pkceChallenge codeVerifier
      if expectedChallenge ≠ authCode.codeChallenge then
        (.invalidGrant (some "PKCE verification failed"), s)
      else
        let accessToken := "at_" ++ uuidA
        let refreshToken := "rt_" ++ uuidR
        let expiresIn := 3600
        (.ok ⟨accessToken, "Bearer", expiresIn, refreshToken⟩,
         { s with
            authCodes := s.authCodes.del code
            tokens := s.tokens.set accessToken
              ⟨accessToken, refreshToken, clientId, now + expiresIn * 1000⟩
            refreshTokenIndex :=
              s.refreshTokenIndex.set refreshToken accessToken })

/-- `OAuthProvider.handleTokenRefresh` (source lines 519–560). -/
def handleTokenRefresh (s : ProviderState) (params : SearchParams)
    (now : Nat) (uuidA uuidR : String) : TokenResult × ProviderState :=
  let refreshToken := jsGetD params "refresh_token"
  match s.refreshTokenIndex.get refreshToken with
  | none => (.invalidGrant none, s)
  | some oldAccessToken =>
    match s.tokens.get oldAccessToken with
    | none =>
        (.invalidGrant none,
         { s with refreshTokenIndex := s.refreshTokenIndex.del refreshToken })
    | some oldRecord =>
        let newAccessToken := "at_" ++ uuidA
        let newRefreshToken := "rt_" ++ uuidR
        let expiresIn := 3600
        (.ok ⟨newAccessToken, "Bearer", expiresIn, newRefreshToken⟩,
         { s with
            tokens := (s.tokens.del oldAccessToken).set newAccessToken
              ⟨newAccessToken, newRefreshToken, oldRecord.clientId,
               now + expiresIn * 1000⟩
            refreshTokenIndex :=
              (s.refreshTokenIndex.del refreshToken).set newRefreshToken
                newAccessToken })

/-- `OAuthProvider.handleToken` (source lines 459–472): dispatch on
`grant_type`. -/
def handleToken (s : ProviderState) (params : SearchParams)
    (now : Nat) (uuidA uuidR : String) : TokenResult × ProviderState :=
  match params "grant_type" with
  | some "authorization_code" => handleTokenAuthCode s params now uuidA uuidR
  | some "refresh_token" => handleTokenRefresh s params now uuidA uuidR
  | _ => (.unsupportedGrantType, s)

/-! ## Bearer validation (`validateToken`, source lines 316–327) -/

/-- `OAuthProvider.validateToken`: the input is the request's
`Authorization` header (`none` when absent).  Returns the boolean verdict
and the possibly-updated state (an expired record is lazily deleted). -/
def validateToken (s : ProviderState) (authHeader : Option String)
    (now : Nat) : Bool × ProviderState :=
  match authHeader with
  | none => (false, s)
  | some auth =>
    if jsStartsWith auth "Bearer " then
      let token := jsSlice auth 7
      match s.tokens.get token with
      | none => (false, s)
      | some record =>
          if now > record.expiresAt then
            (false, { s with tokens := s.tokens.del token })
          else (true, s)
    else (false, s)

/-! ## Authorize approval (`handleAuthorizePost`, source lines 424–457) -/

/-- The 302 redirect issued on approval: base `redirect_uri` plus the
`code` query parameter and, when `state` is non-empty, the `state`
parameter. -/
structure RedirectTarget where
  uri : String
  code : String
  state : Option String
deriving Repr, DecidableEq

/-- Outcome of `POST /authorize`: a 400 HTML error page for an unknown
client, or a 302 redirect carrying the authorization code. -/
inductive AuthorizeResult where
  | unknownClient
  | redirect (target : RedirectTarget)
deriving Repr, DecidableEq

/-- `OAuthProvider.handleAuthorizePost`: the form body is a
`URLSearchParams`; `uuidCode` is the `crypto.randomUUID()` result used as
the code. -/
def handleAuthorizePost (s : ProviderState) (params : SearchParams)
    (now : Nat) (uuidCode : String) : AuthorizeResult × ProviderState :=
  let clientId := jsGetD params "client_id"
  let redirectUri := jsGetD params "redirect_uri"
  let state := jsGetD params "state"
  let codeChallenge := jsGetD params "code_challenge"
  let codeChallengeMethod := jsGetOr params "code_challenge_method" "S256"
  match s.clients.get clientId with
  | none => (.unknownClient, s)
  | some _ =>
    let code := uuidCode
    (.redirect ⟨redirectUri, code, if state = "" then none else some state⟩,
     { s with
        authCodes := s.authCodes.set code
          ⟨code, clientId, redirectUri, codeChallenge, codeChallengeMethod,
           now + 10 * 60 * 1000⟩ })

/-! ## Dynamic registration (`handleRegister`, source lines 346–382) -/

/-- The fields of the registration request body that the handler reads
(`none` models an absent/undefined JSON field). -/
structure RegisterBody where
  token_endpoint_auth_method : Option String
  redirect_uris : Option (List String)
  client_name : Option String
deriving Repr, DecidableEq

/-- The 201 JSON response of dynamic registration. -/
structure RegisterResponse where
  client_id : String
  redirect_uris : List String
  client_name : Option String
  grant_types : List String
  response_types : List String
  token_endpoint_auth_method : String
  client_secret : Option String
deriving Repr, DecidableEq

/-- Outcome of `POST /register`: 201 with the client's credentials, or 400
`invalid_request` when the body is not parseable JSON. -/
inductive RegisterResult where
  | created (response : RegisterResponse)
  | invalidRequest
deriving Repr, DecidableEq

/-- The HTTP status code written for a registration outcome. -/
def RegisterResult.status : RegisterResult → Nat
  | .created _ => 201
  | .invalidRequest => 400

/-- `OAuthProvider.handleRegister`: `body?` is `none` when `JSON.parse`
throws; `uuidClient` and `uuidSecret` are the `crypto.randomUUID()` results
for the client id and the (conditionally consumed) client secret. -/
def handleRegister (s : ProviderState) (body? : Option RegisterBody)
    (uuidClient uuidSecret : String) : RegisterResult × ProviderState :=
  match body? with
  | none => (.invalidRequest, s)
  | some data =>
    let clientId := "client_" ++ uuidClient
    let clientSecret :=
      if data.token_endpoint_auth_method = some "client_secret_post" then
        some ("secret_" ++ uuidSecret)
      else none
    let client : RegisteredClient :=
      ⟨clientId, clientSecret, data.redirect_uris.getD [], data.client_name⟩
    (.created
      ⟨clientId, client.redirectUris, client.clientName,
       ["authorization_code", "refresh_token"], ["code"],
       (if clientSecret.isSome then "client_secret_post" else "none"),
       clientSecret⟩,
     { s with clients := s.clients.set clientId client })

/-! ## HTTP request routing

`oauthHandles` reflects the path/method dispatch of
`OAuthProvider.handleRequest` (source lines 287–313).  `statelessDispatch`
embeds the routing of the stateless HTTP entry point (source lines
149–218, logging aside); `sessionDispatch` embeds the session-variant
entry point, which additionally gates `/mcp` behind `validateToken`. -/

/-- Routing outcome of one inbound HTTP request. -/
inductive HttpAction where
  | health
  | oauthHandled
  | unauthorized
  | mcpForward
  | notFound
deriving Repr, DecidableEq

/-- Whether `OAuthProvider.handleRequest` handles the route (method and
path checks of source lines 291–310). -/
def oauthHandles (method path : String) : Bool :=
  (method = "GET" && path = "/.well-known/oauth-authorization-server") ||
  (method = "POST" && path = "/register") ||
  (method = "GET" && path = "/authorize") ||
  (method = "POST" && path = "/authorize") ||
  (method = "POST" && path = "/token")

/-- Routing of the stateless HTTP handler (source lines 149–218): health
check, OAuth routes, then `/mcp` forwarded to the shared transport with no
bearer check; anything else is 404.  The `Authorization` header is part of
the request but never consulted. -/
def statelessDispatch (method path : String) (authHeader : Option String) :
    HttpAction :=
  if method = "GET" && path = "/health" then .health
  else if oauthHandles method path then .oauthHandled
  else if path = "/mcp" then .mcpForward
  else .notFound

/-- Routing of the session-variant HTTP handler (`src/unnamed/part_000`
lines 72–97): as above, but `/mcp` requires `validateToken`; on failure the
response is 401 with body `JSON.stringify(routing error "Unauthorized")`
and the request is not forwarded. -/
def sessionDispatch (s : ProviderState) (method path : String)
    (authHeader : Option String) (now : Nat) : HttpAction × ProviderState :=
  if method = "GET" && path = "/health" then (.health, s)
  else if oauthHandles method path then (.oauthHandled, s)
  else if path = "/mcp" then
    match validateToken s authHeader now with
    | (false, s') => (.unauthorized, s')
    | (true, s') => (.mcpForward, s')
  else (.notFound, s)

/-! ## The `crypto.randomUUID` sample space

Every opaque identifier the provider generates (`client_…`, `secret_…`,
`at_…`, `rt_…` and the bare authorization code) embeds exactly one output
of `crypto.randomUUID()`.  Modelled from its documented contract (RFC 4122
version 4): a 36-character string whose four hyphens, version nibble (`4`)
and two fixed variant bits are constant, leaving 30 free hexadecimal
nibbles and one nibble drawn from `8/9/a/b` — one outcome per element of
this type. -/
def RandomUUIDSampleSpace : Type := (Fin 30 → Fin 16) × Fin 4

instance : Fintype RandomUUIDSampleSpace :=
  inferInstanceAs (Fintype ((Fin 30 → Fin 16) × Fin 4))

/-! ## Request builders used by the theorems -/

/-- The form body of the authorize approval step. -/
def authorizeParams (cid ruri stp chall method : String) : SearchParams :=
  paramsOfList
    [("client_id", cid), ("redirect_uri", ruri), ("state", stp),
     ("code_challenge", chall), ("code_challenge_method", method)]

/-- The body of an `authorization_code` token request. -/
def tokenCodeParams (code verifier cid : String) : SearchParams :=
  paramsOfList
    [("grant_type", "authorization_code"), ("code", code),
     ("code_verifier", verifier), ("client_id", cid)]

/-- The body of a `refresh_token` token request. -/
def refreshParams (rt : String) : SearchParams :=
  paramsOfList [("grant_type", "refresh_token"), ("refresh_token", rt)]

theorem jsGetD_authorizeParams_client_id (cid ruri stp chall m : String) :
    jsGetD (authorizeParams cid ruri stp chall m) "client_id" = cid := rfl

theorem jsGetD_authorizeParams_redirect_uri (cid ruri stp chall m : String) :
    jsGetD (authorizeParams cid ruri stp chall m) "redirect_uri" = ruri := rfl

theorem jsGetD_authorizeParams_state (cid ruri stp chall m : String) :
    jsGetD (authorizeParams cid ruri stp chall m) "state" = stp := rfl

theorem jsGetD_authorizeParams_code_challenge (cid ruri stp chall m : String) :
    jsGetD (authorizeParams cid ruri stp chall m) "code_challenge" = chall := rfl

theorem jsGetOr_authorizeParams_method_s256 (cid ruri stp chall : String) :
    jsGetOr (authorizeParams cid ruri stp chall "S256")
      "code_challenge_method" "S256" = "S256" := rfl

theorem jsGetD_tokenCodeParams_code (code verifier cid : String) :
    jsGetD (tokenCodeParams code verifier cid) "code" = code := rfl

theorem jsGetD_tokenCodeParams_verifier (code verifier cid : String) :
    jsGetD (tokenCodeParams code verifier cid) "code_verifier" = verifier := rfl

theorem jsGetD_tokenCodeParams_client_id (code verifier cid : String) :
    jsGetD (tokenCodeParams code verifier cid) "client_id" = cid := rfl

theorem jsGetD_refreshParams_rt (rt : String) :
    jsGetD (refreshParams rt) "refresh_token" = rt := rfl

/-! ## Step lemmas for the handlers -/

theorem handleAuthorizePost_known (s : ProviderState) (client : RegisteredClient)
    (cid ruri stp chall cUuid : String) (t0 : Nat)
    (h : s.clients.get cid = some client) :
    handleAuthorizePost s (authorizeParams cid ruri stp chall "S256") t0 cUuid =
      (.redirect ⟨ruri, cUuid, if stp = "" then none else some stp⟩,
       { s with authCodes := (s.authCodes.set cUuid
          ⟨cUuid, cid, ruri, chall, "S256", t0 + 600000⟩) }) := by
  unfold handleAuthorizePost
  simp only [jsGetD_authorizeParams_client_id, jsGetD_authorizeParams_redirect_uri,
    jsGetD_authorizeParams_state, jsGetD_authorizeParams_code_challenge,
    jsGetOr_authorizeParams_method_s256, h]

theorem handleTokenAuthCode_notFound (s : ProviderState) (p : SearchParams)
    (code : String) (now : Nat) (uA uR : String)
    (hpc : jsGetD p "code" = code)
    (hc : s.authCodes.get code = none) :
    handleTokenAuthCode s p now uA uR = (.invalidGrant none, s) := by
  unfold handleTokenAuthCode
  simp only [hpc, hc]

theorem handleTokenAuthCode_found (s : ProviderState) (p : SearchParams)
    (ac : AuthCode) (code verifier cid : String) (now : Nat) (uA uR : String)
    (hpc : jsGetD p "code" = code)
    (hpv : jsGetD p "code_verifier" = verifier)
    (hpi : jsGetD p "client_id" = cid)
    (hc : s.authCodes.get code = some ac) :
    handleTokenAuthCode s p now uA uR =
      (if ac.clientId ≠ cid ∨ now > ac.expiresAt then (.invalidGrant none, s)
       else if pkceChallenge verifier ≠ ac.codeChallenge then
         (.invalidGrant (some "PKCE verification failed"), s)
       else
         (.ok ⟨"at_" ++ uA, "Bearer", 3600, "rt_" ++ uR⟩,
          { s with
             authCodes := s.authCodes.del code
             tokens := s.tokens.set ("at_" ++ uA)
               ⟨"at_" ++ uA, "rt_" ++ uR, cid, now + 3600000⟩
             refreshTokenIndex :=
               s.refreshTokenIndex.set ("rt_" ++ uR) ("at_" ++ uA) })) := by
  unfold handleTokenAuthCode
  simp only [hpc, hpv, hpi, hc]

theorem handleTokenRefresh_noIndex (s : ProviderState) (p : SearchParams)
    (rt : String) (now : Nat) (uA uR : String)
    (hp : jsGetD p "refresh_token" = rt)
    (h : s.refreshTokenIndex.get rt = none) :
    handleTokenRefresh s p now uA uR = (.invalidGrant none, s) := by
  unfold handleTokenRefresh
  simp only [hp, h]

theorem handleTokenRefresh_dangling (s : ProviderState) (p : SearchParams)
    (rt aTok : String) (now : Nat) (uA uR : String)
    (hp : jsGetD p "refresh_token" = rt)
    (h1 : s.refreshTokenIndex.get rt = some aTok)
    (h2 : s.tokens.get aTok = none) :
    handleTokenRefresh s p now uA uR =
      (.invalidGrant none,
       { s with refreshTokenIndex := s.refreshTokenIndex.del rt }) := by
  unfold handleTokenRefresh
  simp only [hp, h1, h2]

theorem handleTokenRefresh_found (s : ProviderState) (p : SearchParams)
    (rt aTok : String) (oldRecord : TokenRecord) (now : Nat) (uA uR : String)
    (hp : jsGetD p "refresh_token" = rt)
    (h1 : s.refreshTokenIndex.get rt = some aTok)
    (h2 : s.tokens.get aTok = some oldRecord) :
    handleTokenRefresh s p now uA uR =
      (.ok ⟨"at_" ++ uA, "Bearer", 3600, "rt_" ++ uR⟩,
       { s with
          tokens := (s.tokens.del aTok).set ("at_" ++ uA)
            ⟨"at_" ++ uA, "rt_" ++ uR, oldRecord.clientId, now + 3600000⟩
          refreshTokenIndex :=
            (s.refreshTokenIndex.del rt).set ("rt_" ++ uR) ("at_" ++ uA) }) := by
  unfold handleTokenRefresh
  simp only [hp, h1, h2]

theorem jsStartsWith_bearer_append (x : String) :
    jsStartsWith ("Bearer " ++ x) "Bearer " = true := by
  rw [jsStartsWith, String.data_append, List.isPrefixOf_iff_prefix]
  exact List.prefix_append _ _

theorem jsSlice_bearer_append (x : String) : jsSlice ("Bearer " ++ x) 7 = x := by
  rw [jsSlice, String.data_append]
  have h7 : ("Bearer " : String).data.length = 7 := rfl
  rw [← h7, List.drop_left]

theorem validateToken_noHeader (s : ProviderState) (now : Nat) :
    validateToken s none now = (false, s) := rfl

theorem validateToken_notBearer (s : ProviderState) (a : String) (now : Nat)
    (h : jsStartsWith a "Bearer " = false) :
    validateToken s (some a) now = (false, s) := by
  unfold validateToken
  simp only [h]
  rfl

theorem validateToken_unknown (s : ProviderState) (tok : String) (now : Nat)
    (h : s.tokens.get tok = none) :
    validateToken s (some ("Bearer " ++ tok)) now = (false, s) := by
  unfold validateToken
  simp only [jsStartsWith_bearer_append, jsSlice_bearer_append, h]
  rfl

theorem validateToken_expired (s : ProviderState) (tok : String)
    (record : TokenRecord) (now : Nat)
    (h : s.tokens.get tok = some record) (hx : now > record.expiresAt) :
    validateToken s (some ("Bearer " ++ tok)) now =
      (false, { s with tokens := s.tokens.del tok }) := by
  unfold validateToken
  simp only [jsStartsWith_bearer_append, jsSlice_bearer_append, h, hx]
  rfl

theorem validateToken_valid (s : ProviderState) (tok : String)
    (record : TokenRecord) (now : Nat)
    (h : s.tokens.get tok = some record) (hx : ¬ now > record.expiresAt) :
    validateToken s (some ("Bearer " ++ tok)) now = (true, s) := by
  unfold validateToken
  simp only [jsStartsWith_bearer_append, jsSlice_bearer_append, h, hx]
  rfl

theorem handleTokenAuthCode_success (s : ProviderState) (p : SearchParams)
    (ac : AuthCode) (code verifier cid : String) (now : Nat) (uA uR : String)
    (hpc : jsGetD p "code" = code)
    (hpv : jsGetD p "code_verifier" = verifier)
    (hpi : jsGetD p "client_id" = cid)
    (hc : s.authCodes.get code = some ac)
    (hcid : ac.clientId = cid)
    (hexp : ¬ now > ac.expiresAt)
    (hchal : pkceChallenge verifier = ac.codeChallenge) :
    handleTokenAuthCode s p now uA uR =
      (.ok ⟨"at_" ++ uA, "Bearer", 3600, "rt_" ++ uR⟩,
       { s with
          authCodes := s.authCodes.del code
          tokens := s.tokens.set ("at_" ++ uA)
            ⟨"at_" ++ uA, "rt_" ++ uR, cid, now + 3600000⟩
          refreshTokenIndex :=
            s.refreshTokenIndex.set ("rt_" ++ uR) ("at_" ++ uA) }) := by
  rw [handleTokenAuthCode_found s p ac code verifier cid now uA uR hpc hpv hpi hc,
    if_neg (not_or.mpr ⟨not_ne_iff.mpr hcid, hexp⟩), if_neg (not_ne_iff.mpr hchal)]

theorem handleTokenAuthCode_reject (s : ProviderState) (p : SearchParams)
    (ac : AuthCode) (code verifier cid : String) (now : Nat) (uA uR : String)
    (hpc : jsGetD p "code" = code)
    (hpv : jsGetD p "code_verifier" = verifier)
    (hpi : jsGetD p "client_id" = cid)
    (hc : s.authCodes.get code = some ac)
    (hbad : ac.clientId ≠ cid ∨ now > ac.expiresAt) :
    handleTokenAuthCode s p now uA uR = (.invalidGrant none, s) := by
  rw [handleTokenAuthCode_found s p ac code verifier cid now uA uR hpc hpv hpi hc,
    if_pos hbad]

/-! ## Concrete states used by witnesses and counterexamples -/

/-- A registered public client used in concrete scenarios. -/
def sampleClient : RegisteredClient :=
  ⟨"client_1", none, ["https://client.example/cb"], none⟩

/-- Provider state holding exactly the sample client. -/
def sampleState : ProviderState :=
  { ProviderState.initial with clients := JsMap.empty.set "client_1" sampleClient }

/-! ## C1 -/

/-- C1: a code issued by the authorize approval step, redeemed once with the
matching `client_id` and the correct PKCE verifier (within its validity
window), yields a 200 token pair and is deleted from the code store; a
second redemption of the same code fails with `invalid_grant`. -/
theorem C1_code_single_use
    (s : ProviderState) (client : RegisteredClient)
    (cid ruri stp chall cUuid verifier uA uR : String) (t0 t1 : Nat)
    (hClient : s.clients.get cid = some client)
    (hChall : pkceChallenge verifier = chall)
    (hTime : t1 ≤ t0 + 600000) :
    (handleTokenAuthCode
        (handleAuthorizePost s (authorizeParams cid ruri stp chall "S256") t0 cUuid).2
        (tokenCodeParams cUuid verifier cid) t1 uA uR).1 =
      .ok ⟨"at_" ++ uA, "Bearer", 3600, "rt_" ++ uR⟩
    ∧ (handleTokenAuthCode
        (handleAuthorizePost s (authorizeParams cid ruri stp chall "S256") t0 cUuid).2
        (tokenCodeParams cUuid verifier cid) t1 uA uR).2.authCodes.get cUuid = none
    ∧ ∀ (t2 : Nat) (v2 uA2 uR2 : String),
        (handleTokenAuthCode
          (handleTokenAuthCode
            (handleAuthorizePost s (authorizeParams cid ruri stp chall "S256") t0 cUuid).2
            (tokenCodeParams cUuid verifier cid) t1 uA uR).2
          (tokenCodeParams cUuid v2 cid) t2 uA2 uR2).1 = .invalidGrant none := by
  have hPost := handleAuthorizePost_known s client cid ruri stp chall cUuid t0 hClient
  have hGet : (handleAuthorizePost s (authorizeParams cid ruri stp chall "S256")
      t0 cUuid).2.authCodes.get cUuid =
      some ⟨cUuid, cid, ruri, chall, "S256", t0 + 600000⟩ := by
    rw [hPost]
    exact JsMap.get_set_self _ _ _
  have hRedeem := handleTokenAuthCode_success _ (tokenCodeParams cUuid verifier cid)
    _ cUuid verifier cid t1 uA uR
    (jsGetD_tokenCodeParams_code _ _ _) (jsGetD_tokenCodeParams_verifier _ _ _)
    (jsGetD_tokenCodeParams_client_id _ _ _) hGet rfl
    (by show ¬ t1 > t0 + 600000; omega)
    (by show pkceChallenge verifier = chall; exact hChall)
  refine ⟨?_, ?_, ?_⟩
  · rw [hRedeem]
  · rw [hRedeem]
    exact JsMap.get_del_self _ _
  · intro t2 v2 uA2 uR2
    have hnone : (handleTokenAuthCode
        (handleAuthorizePost s (authorizeParams cid ruri stp chall "S256") t0 cUuid).2
        (tokenCodeParams cUuid verifier cid) t1 uA uR).2.authCodes.get cUuid =
        none := by
      rw [hRedeem]
      exact JsMap.get_del_self _ _
    rw [handleTokenAuthCode_notFound _ _ cUuid t2 uA2 uR2
      (jsGetD_tokenCodeParams_code _ _ _) hnone]

/-- Witness for C1: one concrete register → authorize → redeem → re-redeem run. -/
theorem C1_code_single_use_witness :
    (handleTokenAuthCode
        (handleAuthorizePost sampleState
          (authorizeParams "client_1" "https://client.example/cb" "xyz"
            (pkceChallenge "abc") "S256") 1000 "code-1").2
        (tokenCodeParams "code-1" "abc" "client_1") 2000 "ua" "ur").1 =
      .ok ⟨"at_" ++ "ua", "Bearer", 3600, "rt_" ++ "ur"⟩
    ∧ (handleTokenAuthCode
        (handleAuthorizePost sampleState
          (authorizeParams "client_1" "https://client.example/cb" "xyz"
            (pkceChallenge "abc") "S256") 1000 "code-1").2
        (tokenCodeParams "code-1" "abc" "client_1") 2000 "ua" "ur").2.authCodes.get
        "code-1" = none
    ∧ (handleTokenAuthCode
        (handleTokenAuthCode
          (handleAuthorizePost sampleState
            (authorizeParams "client_1" "https://client.example/cb" "xyz"
              (pkceChallenge "abc") "S256") 1000 "code-1").2
          (tokenCodeParams "code-1" "abc" "client_1") 2000 "ua" "ur").2
        (tokenCodeParams "code-1" "abc" "client_1") 3000 "ua2" "ur2").1 =
      .invalidGrant none := by
  have h := C1_code_single_use sampleState sampleClient "client_1"
    "https://client.example/cb" "xyz" (pkceChallenge "abc") "code-1" "abc"
    "ua" "ur" 1000 2000 rfl rfl (by decide)
  exact ⟨h.1, h.2.1, h.2.2 3000 "abc" "ua2" "ur2"⟩

/-! ## C2 -/

/-- C2: for a stored authorization code, redemption succeeds only if the
base64url (no padding) encoding of the SHA-256 digest of the presented
`code_verifier` equals the stored challenge, and any verifier whose
recomputed challenge differs is answered with `invalid_grant`. -/
theorem C2_pkce_binding
    (s : ProviderState) (ac : AuthCode) (code verifier cid : String)
    (now : Nat) (uA uR : String)
    (hc : s.authCodes.get code = some ac) :
    ((handleTokenAuthCode s (tokenCodeParams code verifier cid) now uA uR).1.isOk =
        true → pkceChallenge verifier = ac.codeChallenge)
    ∧ (pkceChallenge verifier ≠ ac.codeChallenge →
        (handleTokenAuthCode s
          (tokenCodeParams code verifier cid) now uA uR).1.isInvalidGrant = true) := by
  have hF := handleTokenAuthCode_found s (tokenCodeParams code verifier cid) ac
    code verifier cid now uA uR
    (jsGetD_tokenCodeParams_code _ _ _) (jsGetD_tokenCodeParams_verifier _ _ _)
    (jsGetD_tokenCodeParams_client_id _ _ _) hc
  rw [hF]
  by_cases hbad : ac.clientId ≠ cid ∨ now > ac.expiresAt
  · rw [if_pos hbad]
    exact ⟨fun h => by simp [TokenResult.isOk] at h, fun _ => rfl⟩
  · rw [if_neg hbad]
    by_cases hch : pkceChallenge verifier ≠ ac.codeChallenge
    · rw [if_pos hch]
      exact ⟨fun h => by simp [TokenResult.isOk] at h, fun _ => rfl⟩
    · rw [if_neg hch]
      exact ⟨fun _ => not_ne_iff.mp hch, fun hcontra => absurd hcontra hch⟩

/-- A stored authorization code bound to the PKCE challenge of verifier
`"abc"`, used by concrete scenarios. -/
def storedCode : AuthCode :=
  ⟨"code-1", "client_1", "https://client.example/cb", pkceChallenge "abc",
   "S256", 600000⟩

/-- Provider state holding exactly `storedCode`. -/
def codeState : ProviderState :=
  { ProviderState.initial with authCodes := JsMap.empty.set "code-1" storedCode }

/-- Witness for C2: with the stored challenge of verifier `"abc"`, the
correct verifier redeems and the wrong verifier `"wrong"` gets
`invalid_grant`. -/
theorem C2_pkce_binding_witness :
    ((handleTokenAuthCode codeState
        (tokenCodeParams "code-1" "abc" "client_1") 1000 "ua" "ur").1.isOk =
        true → pkceChallenge "abc" = storedCode.codeChallenge)
    ∧ (pkceChallenge "wrong" ≠ storedCode.codeChallenge →
        (handleTokenAuthCode codeState
          (tokenCodeParams "code-1" "wrong" "client_1") 1000 "ua"
          "ur").1.isInvalidGrant = true)
    ∧ (handleTokenAuthCode codeState
        (tokenCodeParams "code-1" "wrong" "client_1") 1000 "ua"
        "ur").1.isInvalidGrant = true := by
  have h1 := C2_pkce_binding codeState storedCode "code-1" "abc" "client_1"
    1000 "ua" "ur" rfl
  have h2 := C2_pkce_binding codeState storedCode "code-1" "wrong" "client_1"
    1000 "ua" "ur" rfl
  exact ⟨h1.1, h2.2, h2.2 (by decide)⟩

/-! ## C5 -/

/-- Counterexample to C5 as stated: redeeming the expired `storedCode` at
`now = 600001` (one millisecond past its deadline) with the correct
verifier and client fails with `invalid_grant`, but the expired entry is
NOT removed from the code store by that lookup. -/
theorem C5_counterexample :
    (handleTokenAuthCode codeState
        (tokenCodeParams "code-1" "abc" "client_1") 600001 "ua" "ur").1 =
      .invalidGrant none
    ∧ ((handleTokenAuthCode codeState
        (tokenCodeParams "code-1" "abc" "client_1") 600001 "ua"
        "ur").2.authCodes.get "code-1").isSome = true := by
  have hR := handleTokenAuthCode_reject codeState
    (tokenCodeParams "code-1" "abc" "client_1") storedCode "code-1" "abc"
    "client_1" 600001 "ua" "ur" rfl rfl rfl rfl (Or.inr (by decide))
  rw [hR]
  exact ⟨rfl, rfl⟩

/-- C5 amended: redeeming a code past its 10-minute deadline fails with
`invalid_grant` even with the correct verifier and client, but the
provider state is left unchanged — the expired entry stays in the code
store (no lazy removal happens on this lookup). -/
theorem C5_expired_code_rejected_not_removed
    (s : ProviderState) (ac : AuthCode) (code verifier cid : String)
    (now : Nat) (uA uR : String)
    (hc : s.authCodes.get code = some ac)
    (hcid : ac.clientId = cid)
    (hchal : pkceChallenge verifier = ac.codeChallenge)
    (hexp : now > ac.expiresAt) :
    (handleTokenAuthCode s (tokenCodeParams code verifier cid) now uA uR).1 =
      .invalidGrant none
    ∧ (handleTokenAuthCode s (tokenCodeParams code verifier cid) now uA uR).2 = s
    ∧ (handleTokenAuthCode s
        (tokenCodeParams code verifier cid) now uA uR).2.authCodes.get code =
      some ac := by
  have hR := handleTokenAuthCode_reject s (tokenCodeParams code verifier cid)
    ac code verifier cid now uA uR
    (jsGetD_tokenCodeParams_code _ _ _) (jsGetD_tokenCodeParams_verifier _ _ _)
    (jsGetD_tokenCodeParams_client_id _ _ _) hc (Or.inr hexp)
  rw [hR]
  exact ⟨rfl, rfl, hc⟩

/-- Witness for the amended C5 at the concrete expired scenario. -/
theorem C5_expired_code_rejected_not_removed_witness :
    (handleTokenAuthCode codeState
        (tokenCodeParams "code-1" "abc" "client_1") 600001 "ua" "ur").1 =
      .invalidGrant none
    ∧ (handleTokenAuthCode codeState
        (tokenCodeParams "code-1" "abc" "client_1") 600001 "ua" "ur").2 =
      codeState
    ∧ (handleTokenAuthCode codeState
        (tokenCodeParams "code-1" "abc" "client_1") 600001 "ua"
        "ur").2.authCodes.get "code-1" = some storedCode :=
  C5_expired_code_rejected_not_removed codeState storedCode "code-1" "abc"
    "client_1" 600001 "ua" "ur" rfl rfl rfl (by decide)

/-! ## C6 -/

/-- A token request that presents a `redirect_uri` in addition to the three
parameters the handler actually reads. -/
def tokenCodeParamsR (code verifier cid ruri : String) : SearchParams :=
  paramsOfList
    [("grant_type", "authorization_code"), ("code", code),
     ("code_verifier", verifier), ("client_id", cid), ("redirect_uri", ruri)]

theorem jsGetD_tokenCodeParamsR_code (code verifier cid ruri : String) :
    jsGetD (tokenCodeParamsR code verifier cid ruri) "code" = code := rfl

theorem jsGetD_tokenCodeParamsR_verifier (code verifier cid ruri : String) :
    jsGetD (tokenCodeParamsR code verifier cid ruri) "code_verifier" =
      verifier := rfl

theorem jsGetD_tokenCodeParamsR_client_id (code verifier cid ruri : String) :
    jsGetD (tokenCodeParamsR code verifier cid ruri) "client_id" = cid := rfl

theorem jsGetD_tokenCodeParamsR_redirect_uri (code verifier cid ruri : String) :
    jsGetD (tokenCodeParamsR code verifier cid ruri) "redirect_uri" =
      ruri := rfl

/-- Counterexample to C6 as stated: `storedCode` was stored with redirect
URI `https://client.example/cb`, yet a redemption presenting
`redirect_uri=https://evil.example/cb` (correct code, client and verifier,
unexpired) succeeds. -/
theorem C6_counterexample :
    jsGetD (tokenCodeParamsR "code-1" "abc" "client_1" "https://evil.example/cb")
        "redirect_uri" = "https://evil.example/cb"
    ∧ storedCode.redirectUri = "https://client.example/cb"
    ∧ (handleTokenAuthCode codeState
        (tokenCodeParamsR "code-1" "abc" "client_1" "https://evil.example/cb")
        1000 "ua" "ur").1.isOk = true := by
  refine ⟨rfl, rfl, ?_⟩
  have hS := handleTokenAuthCode_success codeState
    (tokenCodeParamsR "code-1" "abc" "client_1" "https://evil.example/cb")
    storedCode "code-1" "abc" "client_1" 1000 "ua" "ur" rfl rfl rfl rfl rfl
    (by decide) rfl
  rw [hS]
  rfl

/-- C6 amended: the token endpoint never reads the presented
`redirect_uri`; redemption of a stored, unexpired code with matching
client and correct verifier succeeds for EVERY presented redirect URI,
matching or not. -/
theorem C6_redirect_uri_ignored_at_redemption
    (s : ProviderState) (ac : AuthCode) (code verifier cid : String)
    (now : Nat) (uA uR : String)
    (hc : s.authCodes.get code = some ac)
    (hcid : ac.clientId = cid)
    (hexp : ¬ now > ac.expiresAt)
    (hchal : pkceChallenge verifier = ac.codeChallenge) :
    ∀ ruri : String,
      (handleTokenAuthCode s (tokenCodeParamsR code verifier cid ruri)
        now uA uR).1 = .ok ⟨"at_" ++ uA, "Bearer", 3600, "rt_" ++ uR⟩ := by
  intro ruri
  rw [handleTokenAuthCode_success s (tokenCodeParamsR code verifier cid ruri)
    ac code verifier cid now uA uR
    (jsGetD_tokenCodeParamsR_code _ _ _ _) (jsGetD_tokenCodeParamsR_verifier _ _ _ _)
    (jsGetD_tokenCodeParamsR_client_id _ _ _ _) hc hcid hexp hchal]

/-- Witness for the amended C6 at the mismatching concrete redirect URI. -/
theorem C6_redirect_uri_ignored_at_redemption_witness :
    (handleTokenAuthCode codeState
        (tokenCodeParamsR "code-1" "abc" "client_1" "https://evil.example/cb")
        1000 "ua" "ur").1 =
      .ok ⟨"at_" ++ "ua", "Bearer", 3600, "rt_" ++ "ur"⟩ :=
  C6_redirect_uri_ignored_at_redemption codeState storedCode "code-1" "abc"
    "client_1" 1000 "ua" "ur" rfl rfl (by decide) rfl
    "https://evil.example/cb"

/-! ## C3 -/

theorem string_append_left_cancel (p a b : String) (h : p ++ a = p ++ b) :
    a = b := by
  have hd := congrArg String.data h
  rw [String.data_append, String.data_append] at hd
  cases a
  cases b
  exact congrArg String.mk (List.append_cancel_left hd)

/-- An established token pair used in concrete refresh scenarios. -/
def refreshRecord : TokenRecord := ⟨"at_old", "rt_old", "client_1", 999999⟩

/-- Provider state holding exactly the pair `at_old` / `rt_old`. -/
def refreshState : ProviderState :=
  { ProviderState.initial with
     tokens := JsMap.empty.set "at_old" refreshRecord
     refreshTokenIndex := JsMap.empty.set "rt_old" "at_old" }

/-- C3: a successful `refresh_token` grant rotates the pair — the response
carries a fresh pair bound to the same `clientId`, the old access token no
longer validates, the old refresh token no longer redeems (fails with
`invalid_grant`), the new access token validates until its expiry, and the
new refresh token redeems exactly once.  The freshness hypotheses record
that `crypto.randomUUID()` does not re-issue the rotated-out identifiers. -/
theorem C3_refresh_rotation
    (s : ProviderState) (rt aTok : String) (oldRecord : TokenRecord)
    (now : Nat) (uA uR : String)
    (h1 : s.refreshTokenIndex.get rt = some aTok)
    (h2 : s.tokens.get aTok = some oldRecord)
    (hA : "at_" ++ uA ≠ aTok)
    (hR : "rt_" ++ uR ≠ rt) :
    (handleTokenRefresh s (refreshParams rt) now uA uR).1 =
      .ok ⟨"at_" ++ uA, "Bearer", 3600, "rt_" ++ uR⟩
    ∧ (handleTokenRefresh s (refreshParams rt) now uA uR).2.tokens.get
        ("at_" ++ uA) =
      some ⟨"at_" ++ uA, "rt_" ++ uR, oldRecord.clientId, now + 3600000⟩
    ∧ (∀ t : Nat,
        (validateToken (handleTokenRefresh s (refreshParams rt) now uA uR).2
          (some ("Bearer " ++ aTok)) t).1 = false)
    ∧ (∀ (t : Nat) (uA2 uR2 : String),
        (handleTokenRefresh (handleTokenRefresh s (refreshParams rt) now uA uR).2
          (refreshParams rt) t uA2 uR2).1 = .invalidGrant none)
    ∧ (∀ t : Nat, t ≤ now + 3600000 →
        (validateToken (handleTokenRefresh s (refreshParams rt) now uA uR).2
          (some ("Bearer " ++ ("at_" ++ uA))) t).1 = true)
    ∧ (∀ (t2 : Nat) (uA2 uR2 : String),
        (handleTokenRefresh (handleTokenRefresh s (refreshParams rt) now uA uR).2
          (refreshParams ("rt_" ++ uR)) t2 uA2 uR2).1 =
          .ok ⟨"at_" ++ uA2, "Bearer", 3600, "rt_" ++ uR2⟩
        ∧ (uR2 ≠ uR →
            ∀ (t3 : Nat) (uA3 uR3 : String),
              (handleTokenRefresh
                (handleTokenRefresh
                  (handleTokenRefresh s (refreshParams rt) now uA uR).2
                  (refreshParams ("rt_" ++ uR)) t2 uA2 uR2).2
                (refreshParams ("rt_" ++ uR)) t3 uA3 uR3).1 =
              .invalidGrant none)) := by
  have hRef := handleTokenRefresh_found s (refreshParams rt) rt aTok oldRecord
    now uA uR (jsGetD_refreshParams_rt rt) h1 h2
  have hTokOld : (handleTokenRefresh s (refreshParams rt) now uA uR).2.tokens.get
      aTok = none := by
    rw [hRef]
    rw [show ({ s with
        tokens := (s.tokens.del aTok).set ("at_" ++ uA)
          ⟨"at_" ++ uA, "rt_" ++ uR, oldRecord.clientId, now + 3600000⟩
        refreshTokenIndex :=
          (s.refreshTokenIndex.del rt).set ("rt_" ++ uR) ("at_" ++ uA) }
        : ProviderState).tokens =
      (s.tokens.del aTok).set ("at_" ++ uA)
        ⟨"at_" ++ uA, "rt_" ++ uR, oldRecord.clientId, now + 3600000⟩ from rfl,
      JsMap.get_set_ne _ _ _ _ (Ne.symm hA)]
    exact JsMap.get_del_self _ _
  have hIdxOld : (handleTokenRefresh s
      (refreshParams rt) now uA uR).2.refreshTokenIndex.get rt = none := by
    rw [hRef]
    rw [show ({ s with
        tokens := (s.tokens.del aTok).set ("at_" ++ uA)
          ⟨"at_" ++ uA, "rt_" ++ uR, oldRecord.clientId, now + 3600000⟩
        refreshTokenIndex :=
          (s.refreshTokenIndex.del rt).set ("rt_" ++ uR) ("at_" ++ uA) }
        : ProviderState).refreshTokenIndex =
      (s.refreshTokenIndex.del rt).set ("rt_" ++ uR) ("at_" ++ uA) from rfl,
      JsMap.get_set_ne _ _ _ _ (Ne.symm hR)]
    exact JsMap.get_del_self _ _
  have hTokNew : (handleTokenRefresh s (refreshParams rt) now uA uR).2.tokens.get
      ("at_" ++ uA) =
      some ⟨"at_" ++ uA, "rt_" ++ uR, oldRecord.clientId, now + 3600000⟩ := by
    rw [hRef]
    exact JsMap.get_set_self _ _ _
  have hIdxNew : (handleTokenRefresh s
      (refreshParams rt) now uA uR).2.refreshTokenIndex.get ("rt_" ++ uR) =
      some ("at_" ++ uA) := by
    rw [hRef]
    exact JsMap.get_set_self _ _ _
  refine ⟨by rw [hRef], hTokNew, ?_, ?_, ?_, ?_⟩
  · intro t
    rw [validateToken_unknown _ aTok t hTokOld]
  · intro t uA2 uR2
    rw [handleTokenRefresh_noIndex _ _ rt t uA2 uR2 (jsGetD_refreshParams_rt rt)
      hIdxOld]
  · intro t ht
    rw [validateToken_valid _ ("at_" ++ uA) _ t hTokNew
      (by show ¬ t > now + 3600000; omega)]
  · intro t2 uA2 uR2
    have hRef2 := handleTokenRefresh_found _ (refreshParams ("rt_" ++ uR))
      ("rt_" ++ uR) ("at_" ++ uA)
      ⟨"at_" ++ uA, "rt_" ++ uR, oldRecord.clientId, now + 3600000⟩ t2 uA2 uR2
      (jsGetD_refreshParams_rt _) hIdxNew hTokNew
    refine ⟨by rw [hRef2], ?_⟩
    intro hNe t3 uA3 uR3
    have hIdxGone : (handleTokenRefresh
        (handleTokenRefresh s (refreshParams rt) now uA uR).2
        (refreshParams ("rt_" ++ uR)) t2 uA2 uR2).2.refreshTokenIndex.get
        ("rt_" ++ uR) = none := by
      rw [hRef2]
      rw [JsMap.get_set_ne _ _ _ _
        (fun hEq => hNe (string_append_left_cancel _ _ _ hEq).symm)]
      exact JsMap.get_del_self _ _
    rw [handleTokenRefresh_noIndex _ _ ("rt_" ++ uR) t3 uA3 uR3
      (jsGetD_refreshParams_rt _) hIdxGone]

/-- Witness for C3: one concrete rotation on `refreshState`, with the old
pair dead, the new pair live, a second rotation on the new refresh token,
and the failure of its third use. -/
theorem C3_refresh_rotation_witness :
    (handleTokenRefresh refreshState (refreshParams "rt_old") 1000 "ua" "ur").1 =
      .ok ⟨"at_" ++ "ua", "Bearer", 3600, "rt_" ++ "ur"⟩
    ∧ (validateToken
        (handleTokenRefresh refreshState (refreshParams "rt_old") 1000 "ua" "ur").2
        (some ("Bearer " ++ "at_old")) 0).1 = false
    ∧ (handleTokenRefresh
        (handleTokenRefresh refreshState (refreshParams "rt_old") 1000 "ua" "ur").2
        (refreshParams "rt_old") 0 "x" "y").1 = .invalidGrant none
    ∧ (validateToken
        (handleTokenRefresh refreshState (refreshParams "rt_old") 1000 "ua" "ur").2
        (some ("Bearer " ++ ("at_" ++ "ua"))) 500).1 = true
    ∧ (handleTokenRefresh
        (handleTokenRefresh refreshState (refreshParams "rt_old") 1000 "ua" "ur").2
        (refreshParams ("rt_" ++ "ur")) 2000 "ua2" "ur2").1 =
      .ok ⟨"at_" ++ "ua2", "Bearer", 3600, "rt_" ++ "ur2"⟩
    ∧ (handleTokenRefresh
        (handleTokenRefresh
          (handleTokenRefresh refreshState (refreshParams "rt_old") 1000 "ua" "ur").2
          (refreshParams ("rt_" ++ "ur")) 2000 "ua2" "ur2").2
        (refreshParams ("rt_" ++ "ur")) 3000 "ua3" "ur3").1 =
      .invalidGrant none := by
  have h := C3_refresh_rotation refreshState "rt_old" "at_old" refreshRecord
    1000 "ua" "ur" rfl rfl (by decide) (by decide)
  exact ⟨h.1, h.2.2.1 0, h.2.2.2.1 0 "x" "y", h.2.2.2.2.1 500 (by decide),
    (h.2.2.2.2.2 2000 "ua2" "ur2").1,
    (h.2.2.2.2.2 2000 "ua2" "ur2").2 (by decide) 3000 "ua3" "ur3"⟩

/-! ## C10 -/

/-- C10: a refresh with a refresh token whose index entry exists but whose
paired access-token record is gone fails with `invalid_grant` and deletes
exactly the dangling index entry, leaving every other store entry (and the
other three stores) unchanged. -/
theorem C10_dangling_refresh_entry
    (s : ProviderState) (rt aTok : String) (now : Nat) (uA uR : String)
    (h1 : s.refreshTokenIndex.get rt = some aTok)
    (h2 : s.tokens.get aTok = none) :
    (handleTokenRefresh s (refreshParams rt) now uA uR).1 = .invalidGrant none
    ∧ (handleTokenRefresh s
        (refreshParams rt) now uA uR).2.refreshTokenIndex.get rt = none
    ∧ (∀ q : String, q ≠ rt →
        (handleTokenRefresh s
          (refreshParams rt) now uA uR).2.refreshTokenIndex.get q =
        s.refreshTokenIndex.get q)
    ∧ (handleTokenRefresh s (refreshParams rt) now uA uR).2.tokens = s.tokens
    ∧ (handleTokenRefresh s (refreshParams rt) now uA uR).2.authCodes =
      s.authCodes
    ∧ (handleTokenRefresh s (refreshParams rt) now uA uR).2.clients =
      s.clients := by
  have hD := handleTokenRefresh_dangling s (refreshParams rt) rt aTok now uA uR
    (jsGetD_refreshParams_rt rt) h1 h2
  rw [hD]
  exact ⟨rfl, JsMap.get_del_self _ _, fun q hq => JsMap.get_del_ne _ _ _ hq,
    rfl, rfl, rfl⟩

/-- Provider state with a dangling refresh-token index entry. -/
def danglingState : ProviderState :=
  { ProviderState.initial with
     refreshTokenIndex := JsMap.empty.set "rt_d" "at_gone" }

/-- Witness for C10 on the concrete dangling state. -/
theorem C10_dangling_refresh_entry_witness :
    (handleTokenRefresh danglingState (refreshParams "rt_d") 1000 "ua" "ur").1 =
      .invalidGrant none
    ∧ (handleTokenRefresh danglingState
        (refreshParams "rt_d") 1000 "ua" "ur").2.refreshTokenIndex.get "rt_d" =
      none
    ∧ (handleTokenRefresh danglingState
        (refreshParams "rt_d") 1000 "ua" "ur").2.refreshTokenIndex.get "rt_x" =
      danglingState.refreshTokenIndex.get "rt_x"
    ∧ (handleTokenRefresh danglingState
        (refreshParams "rt_d") 1000 "ua" "ur").2.tokens = danglingState.tokens := by
  have h := C10_dangling_refresh_entry danglingState "rt_d" "at_gone" 1000
    "ua" "ur" rfl rfl
  exact ⟨h.1, h.2.1, h.2.2.1 "rt_x" (by decide), h.2.2.2.1⟩

/-! ## C4 -/

/-- The C4 invariant: every refresh-token index entry points to an access
token that is present in the token store. -/
def RefreshIndexInv (s : ProviderState) : Prop :=
  ∀ rt aTok : String, s.refreshTokenIndex.get rt = some aTok →
    ∃ r : TokenRecord, s.tokens.get aTok = some r

/-- No two refresh-token index entries share an access token. -/
def RefreshIndexInj (s : ProviderState) : Prop :=
  ∀ rt1 rt2 aTok : String, s.refreshTokenIndex.get rt1 = some aTok →
    s.refreshTokenIndex.get rt2 = some aTok → rt1 = rt2

/-- Counterexample to C4 as stated: `refreshState` satisfies the invariant,
but bearer validation of the expired access token `at_old` at
`now = 1000000` lazily evicts the token record while leaving the
`rt_old → at_old` index entry, so the invariant fails afterwards. -/
theorem C4_counterexample :
    RefreshIndexInv refreshState
    ∧ ¬ RefreshIndexInv
        (validateToken refreshState (some "Bearer at_old") 1000000).2 := by
  constructor
  · intro rt aTok h
    by_cases hrt : rt = "rt_old"
    · subst hrt
      have h0 : refreshState.refreshTokenIndex.get "rt_old" = some "at_old" :=
        rfl
      obtain rfl : aTok = "at_old" := (Option.some.inj (h0.symm.trans h)).symm
      exact ⟨refreshRecord, rfl⟩
    · exfalso
      have h0 : refreshState.refreshTokenIndex.get rt = none := by
        show (if rt = "rt_old" then some "at_old" else none) = none
        rw [if_neg hrt]
      rw [h0] at h
      exact Option.noConfusion h
  · intro hInv
    obtain ⟨r, hr⟩ := hInv "rt_old" "at_old" rfl
    have hgone : (validateToken refreshState
        (some "Bearer at_old") 1000000).2.tokens.get "at_old" = none := rfl
    rw [hgone] at hr
    exact Option.noConfusion hr

/-- C4 amended: the invariant is preserved by the code-exchange handler
unconditionally and by the refresh handler whenever no two index entries
share an access token, but not by bearer validation (see the
counterexample): lazy expiry eviction leaves a dangling index entry, which
only a later refresh attempt removes. -/
theorem C4_index_invariant_preserved_by_token_endpoint
    (s : ProviderState) (p : SearchParams) (now : Nat) (uA uR : String)
    (hInv : RefreshIndexInv s) :
    RefreshIndexInv (handleTokenAuthCode s p now uA uR).2
    ∧ (RefreshIndexInj s →
        RefreshIndexInv (handleTokenRefresh s p now uA uR).2) := by
  constructor
  · cases hc : s.authCodes.get (jsGetD p "code") with
    | none =>
        rw [handleTokenAuthCode_notFound s p _ now uA uR rfl hc]
        exact hInv
    | some ac =>
        rw [handleTokenAuthCode_found s p ac _ _ _ now uA uR rfl rfl rfl hc]
        split_ifs with hb1 hb2
        · exact hInv
        · exact hInv
        · intro rt aTok h
          by_cases hrt : rt = "rt_" ++ uR
          · subst hrt
            rw [JsMap.get_set_self] at h
            obtain rfl : aTok = "at_" ++ uA := (Option.some.inj h).symm
            exact ⟨_, JsMap.get_set_self _ _ _⟩
          · rw [JsMap.get_set_ne _ _ _ _ hrt] at h
            obtain ⟨r, hr⟩ := hInv rt aTok h
            by_cases hat : aTok = "at_" ++ uA
            · subst hat
              exact ⟨_, JsMap.get_set_self _ _ _⟩
            · refine ⟨r, ?_⟩
              rw [JsMap.get_set_ne _ _ _ _ hat]
              exact hr
  · intro hInj
    cases h1 : s.refreshTokenIndex.get (jsGetD p "refresh_token") with
    | none =>
        rw [handleTokenRefresh_noIndex s p _ now uA uR rfl h1]
        exact hInv
    | some aT =>
        cases h2 : s.tokens.get aT with
        | none =>
            rw [handleTokenRefresh_dangling s p _ aT now uA uR rfl h1 h2]
            intro rt aTok h
            by_cases hrt : rt = jsGetD p "refresh_token"
            · subst hrt
              rw [JsMap.get_del_self] at h
              exact Option.noConfusion h
            · rw [JsMap.get_del_ne _ _ _ hrt] at h
              exact hInv rt aTok h
        | some oldRec =>
            rw [handleTokenRefresh_found s p _ aT oldRec now uA uR rfl h1 h2]
            intro rt aTok h
            by_cases hrt : rt = "rt_" ++ uR
            · subst hrt
              rw [JsMap.get_set_self] at h
              obtain rfl : aTok = "at_" ++ uA := (Option.some.inj h).symm
              exact ⟨_, JsMap.get_set_self _ _ _⟩
            · rw [JsMap.get_set_ne _ _ _ _ hrt] at h
              by_cases hq : rt = jsGetD p "refresh_token"
              · subst hq
                rw [JsMap.get_del_self] at h
                exact Option.noConfusion h
              · rw [JsMap.get_del_ne _ _ _ hq] at h
                obtain ⟨r, hr⟩ := hInv rt aTok h
                have haT : aTok ≠ aT := fun hEq =>
                  hq (hInj rt (jsGetD p "refresh_token") aT (hEq ▸ h) h1)
                by_cases hat : aTok = "at_" ++ uA
                · subst hat
                  exact ⟨_, JsMap.get_set_self _ _ _⟩
                · refine ⟨r, ?_⟩
                  rw [JsMap.get_set_ne _ _ _ _ hat,
                    JsMap.get_del_ne _ _ _ haT]
                  exact hr

/-- Witness for the amended C4: both preservation statements applied on
`refreshState` with a concrete token request. -/
theorem C4_index_invariant_preserved_witness :
    RefreshIndexInv
      (handleTokenAuthCode refreshState
        (tokenCodeParams "code-1" "abc" "client_1") 1000 "ua" "ur").2
    ∧ RefreshIndexInv
      (handleTokenRefresh refreshState (refreshParams "rt_old") 1000 "ua"
        "ur").2 := by
  have hInv : RefreshIndexInv refreshState := by
    intro rt aTok h
    by_cases hrt : rt = "rt_old"
    · subst hrt
      have h0 : refreshState.refreshTokenIndex.get "rt_old" = some "at_old" :=
        rfl
      obtain rfl : aTok = "at_old" := (Option.some.inj (h0.symm.trans h)).symm
      exact ⟨refreshRecord, rfl⟩
    · exfalso
      have h0 : refreshState.refreshTokenIndex.get rt = none := by
        show (if rt = "rt_old" then some "at_old" else none) = none
        rw [if_neg hrt]
      rw [h0] at h
      exact Option.noConfusion h
  have hInj : RefreshIndexInj refreshState := by
    intro rt1 rt2 aTok ha hb
    by_cases hr1 : rt1 = "rt_old"
    · by_cases hr2 : rt2 = "rt_old"
      · rw [hr1, hr2]
      · exfalso
        have h0 : refreshState.refreshTokenIndex.get rt2 = none := by
          show (if rt2 = "rt_old" then some "at_old" else none) = none
          rw [if_neg hr2]
        rw [h0] at hb
        exact Option.noConfusion hb
    · exfalso
      have h0 : refreshState.refreshTokenIndex.get rt1 = none := by
        show (if rt1 = "rt_old" then some "at_old" else none) = none
        rw [if_neg hr1]
      rw [h0] at ha
      exact Option.noConfusion ha
  have h := C4_index_invariant_preserved_by_token_endpoint refreshState
    (tokenCodeParams "code-1" "abc" "client_1") 1000 "ua" "ur" hInv
  have h' := C4_index_invariant_preserved_by_token_endpoint refreshState
    (refreshParams "rt_old") 1000 "ua" "ur" hInv
  exact ⟨h.1, h'.2 hInj⟩

/-! ## C7 -/

/-- Counterexample to C7 as stated: in the stateless HTTP entry point of
`src/index.ts` a `POST /mcp` request carrying no `Authorization` header at
all is forwarded to the MCP transport instead of being answered with 401 —
that variant performs no bearer check. -/
theorem C7_counterexample :
    statelessDispatch "POST" "/mcp" none = HttpAction.mcpForward
    ∧ HttpAction.mcpForward ≠ HttpAction.unauthorized := by
  constructor
  · rfl
  · intro h
    exact HttpAction.noConfusion h

/-- C7 amended: only the session-variant handler gates `/mcp` — whenever
bearer validation fails (missing header, non-`Bearer` scheme, unknown
token, expired token) it answers 401 without forwarding, and health checks
plus the five OAuth routes bypass the check — while the stateless-variant
handler forwards every `/mcp` request without consulting the
`Authorization` header. -/
theorem C7_bearer_gate_session_variant_only
    (s : ProviderState) (m : String) (ah : Option String) (now : Nat) :
    statelessDispatch m "/mcp" ah = HttpAction.mcpForward
    ∧ ((validateToken s ah now).1 = false →
        sessionDispatch s m "/mcp" ah now =
          (HttpAction.unauthorized, (validateToken s ah now).2))
    ∧ ((validateToken s ah now).1 = true →
        sessionDispatch s m "/mcp" ah now =
          (HttpAction.mcpForward, (validateToken s ah now).2))
    ∧ (validateToken s none now).1 = false
    ∧ (∀ a : String, jsStartsWith a "Bearer " = false →
        (validateToken s (some a) now).1 = false)
    ∧ (∀ tok : String, s.tokens.get tok = none →
        (validateToken s (some ("Bearer " ++ tok)) now).1 = false)
    ∧ (∀ (tok : String) (r : TokenRecord), s.tokens.get tok = some r →
        now > r.expiresAt →
        (validateToken s (some ("Bearer " ++ tok)) now).1 = false)
    ∧ sessionDispatch s "GET" "/health" ah now = (HttpAction.health, s)
    ∧ sessionDispatch s "POST" "/token" ah now = (HttpAction.oauthHandled, s)
    ∧ sessionDispatch s "POST" "/register" ah now = (HttpAction.oauthHandled, s)
    ∧ sessionDispatch s "GET" "/authorize" ah now = (HttpAction.oauthHandled, s)
    ∧ sessionDispatch s "POST" "/authorize" ah now = (HttpAction.oauthHandled, s)
    ∧ sessionDispatch s "GET" "/.well-known/oauth-authorization-server" ah now =
      (HttpAction.oauthHandled, s) := by
  refine ⟨?_, ?_, ?_, rfl, ?_, ?_, ?_, rfl, rfl, rfl, rfl, rfl, rfl⟩
  · simp [statelessDispatch, oauthHandles]
  · intro hv
    cases hvt : validateToken s ah now with
    | mk b s' =>
        rw [hvt] at hv
        simp only at hv
        subst hv
        simp [sessionDispatch, oauthHandles, hvt]
  · intro hv
    cases hvt : validateToken s ah now with
    | mk b s' =>
        rw [hvt] at hv
        simp only at hv
        subst hv
        simp [sessionDispatch, oauthHandles, hvt]
  · intro a ha
    rw [validateToken_notBearer s a now ha]
  · intro tok htok
    rw [validateToken_unknown s tok now htok]
  · intro tok r htok hx
    rw [validateToken_expired s tok r now htok hx]

/-- Witness for the amended C7: the gate applied on `refreshState` with a
missing header, an unknown token, and an expired token, plus the valid
case and the bypasses. -/
theorem C7_bearer_gate_witness :
    statelessDispatch "POST" "/mcp" none = HttpAction.mcpForward
    ∧ sessionDispatch refreshState "POST" "/mcp" none 1000 =
      (HttpAction.unauthorized, refreshState)
    ∧ sessionDispatch refreshState "POST" "/mcp" (some "Bearer at_unknown") 1000 =
      (HttpAction.unauthorized, refreshState)
    ∧ sessionDispatch refreshState "POST" "/mcp" (some ("Bearer " ++ "at_old"))
        1000 = (HttpAction.mcpForward, refreshState)
    ∧ sessionDispatch refreshState "GET" "/health" none 1000 =
      (HttpAction.health, refreshState)
    ∧ sessionDispatch refreshState "POST" "/token" none 1000 =
      (HttpAction.oauthHandled, refreshState) := by
  have h1 := C7_bearer_gate_session_variant_only refreshState "POST" none 1000
  have h2 := C7_bearer_gate_session_variant_only refreshState "POST"
    (some "Bearer at_unknown") 1000
  have h3 := C7_bearer_gate_session_variant_only refreshState "POST"
    (some ("Bearer " ++ "at_old")) 1000
  refine ⟨h1.1, h1.2.1 rfl, h2.2.1 rfl, h3.2.2.1 ?_, h1.2.2.2.2.2.2.2.1,
    h1.2.2.2.2.2.2.2.2.1⟩
  exact congrArg Prod.fst (validateToken_valid refreshState "at_old"
    refreshRecord 1000 rfl (by decide))

/-! ## C8 -/

/-- C8: dynamic registration with a parseable body and no
`token_endpoint_auth_method` hint (or any hint other than
`client_secret_post`) returns 201 with `token_endpoint_auth_method`
`"none"` and no `client_secret`; the hint `client_secret_post` makes the
provider generate and return a client secret with method
`"client_secret_post"`. -/
theorem C8_registration_auth_method
    (s : ProviderState) (data : RegisterBody) (uC uS : String) :
    (handleRegister s (some data) uC uS).1.status = 201
    ∧ (data.token_endpoint_auth_method ≠ some "client_secret_post" →
        (handleRegister s (some data) uC uS).1 =
          .created ⟨"client_" ++ uC, data.redirect_uris.getD [],
            data.client_name, ["authorization_code", "refresh_token"],
            ["code"], "none", none⟩)
    ∧ (data.token_endpoint_auth_method = some "client_secret_post" →
        (handleRegister s (some data) uC uS).1 =
          .created ⟨"client_" ++ uC, data.redirect_uris.getD [],
            data.client_name, ["authorization_code", "refresh_token"],
            ["code"], "client_secret_post", some ("secret_" ++ uS)⟩) := by
  by_cases hm : data.token_endpoint_auth_method = some "client_secret_post"
  · refine ⟨?_, fun hn => absurd hm hn, fun _ => ?_⟩
    · unfold handleRegister
      simp [hm, RegisterResult.status]
    · unfold handleRegister
      simp [hm]
  · refine ⟨?_, fun _ => ?_, fun hy => absurd hy hm⟩
    · unfold handleRegister
      simp [hm, RegisterResult.status]
    · unfold handleRegister
      simp [hm]

/-- Witness for C8: one public registration (no hint) and one confidential
registration (`client_secret_post` hint). -/
theorem C8_registration_auth_method_witness :
    (handleRegister sampleState
        (some ⟨none, some ["https://client.example/cb"], none⟩) "u1" "s1").1 =
      .created ⟨"client_" ++ "u1", ["https://client.example/cb"], none,
        ["authorization_code", "refresh_token"], ["code"], "none", none⟩
    ∧ (handleRegister sampleState
        (some ⟨some "client_secret_post", some ["https://client.example/cb"],
          none⟩) "u2" "s2").1 =
      .created ⟨"client_" ++ "u2", ["https://client.example/cb"], none,
        ["authorization_code", "refresh_token"], ["code"],
        "client_secret_post", some ("secret_" ++ "s2")⟩ := by
  have h1 := C8_registration_auth_method sampleState
    ⟨none, some ["https://client.example/cb"], none⟩ "u1" "s1"
  have h2 := C8_registration_auth_method sampleState
    ⟨some "client_secret_post", some ["https://client.example/cb"], none⟩
    "u2" "s2"
  exact ⟨h1.2.1 (by decide), h2.2.2 rfl⟩

/-! ## C9 -/

/-- Counterexample to C9 as stated: every generated identifier embeds
exactly one `crypto.randomUUID()` output, and that generator's sample
space has exactly `2 ^ 122` equally likely outcomes (30 free hex nibbles
and a 4-way variant nibble), which is strictly fewer than the `2 ^ 128`
outcomes needed for 128 bits of entropy. -/
theorem C9_counterexample :
    Fintype.card RandomUUIDSampleSpace = 2 ^ 122
    ∧ ¬ 2 ^ 128 ≤ Fintype.card RandomUUIDSampleSpace := by
  have hcard : Fintype.card RandomUUIDSampleSpace = 2 ^ 122 := by
    have h : Fintype.card RandomUUIDSampleSpace =
        Fintype.card ((Fin 30 → Fin 16) × Fin 4) := rfl
    rw [h, Fintype.card_prod, Fintype.card_fun, Fintype.card_fin,
      Fintype.card_fin]
    norm_num
  refine ⟨hcard, ?_⟩
  rw [hcard]
  intro hle
  have hlt : (2 : Nat) ^ 122 < 2 ^ 128 :=
    Nat.pow_lt_pow_right (by norm_num) (by norm_num)
  omega

/-- C9 amended: the identifiers are drawn from the RFC 4122 version-4 UUID
sample space of `crypto.randomUUID()`, which has exactly `2 ^ 122`
outcomes — 122 bits of entropy, not the claimed ≥128. -/
theorem C9_uuid_entropy_is_122_bits :
    Fintype.card RandomUUIDSampleSpace = 2 ^ 122 := by
  have h : Fintype.card RandomUUIDSampleSpace =
      Fintype.card ((Fin 30 → Fin 16) × Fin 4) := rfl
  rw [h, Fintype.card_prod, Fintype.card_fun, Fintype.card_fin,
    Fintype.card_fin]
  norm_num

end FeaturebaseMcp
